import Mathlib

/-!
Verification development for the cat-fact request-cache subsystem.

The repository's own code (`src/App.js`) consists of the Fetcher
`fetchCatFact`, the UI component `CatFactApp`, and glue wiring them to an
external query library.  The Fetcher and the UI rendering are embedded from
the source; the ResourceCache / RefetchController subsystem that the spec
describes at design level is not present under `src/` and is modelled from
the spec, as marked on each definition.
-/

/-- Payload of the remote endpoint: a JSON object with a `fact` field,
read by the UI as `data.fact`. -/
structure CatFactPayload where
  fact : String
deriving Repr, DecidableEq

/-- Error kinds of the subsystem: `networkError` models a JavaScript
exception raised for a transport failure or thrown by `fetchCatFact` on a
non-2xx response; `decodeError` models the rejection of `response.json()`
on a malformed body. -/
inductive JsError where
  | networkError (message : String)
  | decodeError (message : String)
deriving Repr, DecidableEq

/-- Message carried by an error, as read by the UI (`error.message`). -/
def JsError.message : JsError → String
  | .networkError m => m
  | .decodeError m => m

/-- An HTTP response as seen by `fetchCatFact`.  The builtin
`response.json()` is modelled abstractly by the `json` field: `some v`
when the body parses to the payload `v`, `none` when the body is
malformed and `response.json()` would reject. -/
structure HttpResponse where
  statusCode : Nat
  statusText : String
  json : Option CatFactPayload
deriving Repr, DecidableEq

/-- The `ok` flag of the fetch API: true exactly for a 2xx status. -/
def HttpResponse.ok (r : HttpResponse) : Bool :=
  200 ≤ r.statusCode && r.statusCode < 300

/-- Outcome of one invocation of the builtin `fetch`: either the awaited
promise rejects (transport failure) or an HTTP response arrives. -/
inductive TransportOutcome where
  | failure (message : String)
  | response (r : HttpResponse)
deriving Repr, DecidableEq

/-- Fixed message of the rejection of `response.json()` on a malformed
body, standing in for the browser's SyntaxError message. -/
def decodeFailMessage : String := "Unexpected end of JSON input"

/-- Embeds `fetchCatFact` from `src/App.js`: await `fetch(url)`; a
transport failure propagates as a network error; on a non-2xx response
throw `Error('Failed to fetch cat fact')`; otherwise return
`response.json()`, whose rejection on a malformed body propagates as a
decode error. -/
def fetchCatFact : TransportOutcome → Except JsError CatFactPayload
  | .failure msg => .error (.networkError msg)
  | .response r =>
    if !r.ok then .error (.networkError "Failed to fetch cat fact")
    else
      match r.json with
      | some v => .ok v
      | none => .error (.decodeError decodeFailMessage)

/-- One invocation of the Fetcher against an environment assigning an
outcome to each HTTP request, with an explicit count of requests issued so
far: the invocation issues exactly one request (the `n`-th) and returns
its outcome together with the new request count. -/
def fetchOnce (env : Nat → TransportOutcome) (n : Nat) :
    Except JsError CatFactPayload × Nat :=
  (fetchCatFact (env n), n + 1)

/-- Modelled from the spec: the RefetchController's retry loop, absent
from `src/` (retry policy lives in the external library).  On a
`networkError` it retries until the attempt budget `fuel` (the configured
`maxRetries`, counting total attempts) is exhausted, then settles with the
final error; a success or a decode error settles at once. -/
def fetchWithRetry (env : Nat → TransportOutcome) :
    Nat → Nat → Except JsError CatFactPayload × Nat
  | 0, n => (.error (.networkError "retries exhausted"), n)
  | fuel + 1, n =>
    let (res, n') := fetchOnce env n
    match res with
    | .ok v => (.ok v, n')
    | .error (.networkError m) =>
      if fuel = 0 then (.error (.networkError m), n') else fetchWithRetry env fuel n'
    | .error e => (.error e, n')

/-- Modelled from the spec: fetch status of a cache entry. -/
inductive Status where
  | idle | loading | success | error
deriving Repr, DecidableEq

/-- Modelled from the spec: the CacheEntry for the single key, absent from
`src/`.  `value`, `errorInfo`, `fetchedAt` are the spec's fields;
`nextFetchId` numbers fetches in start order, `currentFetchId` is the
latest-started (non-superseded) in-flight fetch, and `inFlight` lists the
started-but-unresolved fetch ids, for the ordering and supersession model
of the spec's concurrency section. -/
structure EntryState where
  status : Status
  value : Option CatFactPayload
  errorInfo : Option JsError
  fetchedAt : Option Nat
  nextFetchId : Nat
  currentFetchId : Option Nat
  inFlight : List Nat
deriving Repr, DecidableEq

/-- Modelled from the spec: the entry created lazily on first access. -/
def entryInit : EntryState :=
  { status := .idle, value := none, errorInfo := none, fetchedAt := none,
    nextFetchId := 0, currentFetchId := none, inFlight := [] }

/-- Modelled from the spec: `completeSuccess(key, value, now)` sets
`status=success`, `value`, `fetchedAt=now` and clears `errorInfo`; the
resolved fetch is no longer current. -/
def completeSuccess (s : EntryState) (v : CatFactPayload) (now : Nat) : EntryState :=
  { s with status := .success, value := some v, fetchedAt := some now,
           errorInfo := none, currentFetchId := none }

/-- Modelled from the spec: `completeError(key, errorInfo)` sets
`status=error` and `errorInfo`; `value` and `fetchedAt` untouched; the
resolved fetch is no longer current. -/
def completeError (s : EntryState) (e : JsError) : EntryState :=
  { s with status := .error, errorInfo := some e, currentFetchId := none }

/-- Modelled from the spec: `isStale(key, staleTime, now)` — true when no
fetch has occurred or `now - fetchedAt > staleTime`. -/
def isStale (s : EntryState) (staleTime now : Nat) : Bool :=
  match s.fetchedAt with
  | none => true
  | some t => decide (staleTime < now - t)

/-- Modelled from the spec: starting a new fetch marks the entry loading,
assigns the next fetch id, makes it current (superseding any prior
in-flight fetch) and records it as outstanding. -/
def startFetch (s : EntryState) : EntryState :=
  { s with status := .loading,
           currentFetchId := some s.nextFetchId,
           nextFetchId := s.nextFetchId + 1,
           inFlight := s.nextFetchId :: s.inFlight }

/-- Modelled from the spec: `beginFetch(key)` transitions to loading only
if not already loading; the Bool says whether a new fetch should start
(false = already in flight, caller must not start a duplicate). -/
def beginFetch (s : EntryState) : Bool × EntryState :=
  if s.status = .loading then (false, s) else (true, startFetch s)

/-- Modelled from the spec: a completion arriving for fetch `id` resolves
that fetch; its result is applied only when `id` is still the current
fetch, and is discarded when that fetch was superseded. -/
def applyComplete (s : EntryState) (id : Nat)
    (r : Except JsError CatFactPayload) (now : Nat) : EntryState :=
  let s' := { s with inFlight := s.inFlight.erase id }
  if s.currentFetchId = some id then
    match r with
    | .ok v => completeSuccess s' v now
    | .error e => completeError s' e
  else s'

/-- Modelled from the spec: the RefetchController maps a settled Fetcher
result to `completeSuccess` or `completeError`. -/
def settle (s : EntryState) (r : Except JsError CatFactPayload) (now : Nat) : EntryState :=
  match r with
  | .ok v => completeSuccess s v now
  | .error e => completeError s e

/-- Modelled from the spec: events the RefetchController processes for the
key — `ensureFresh`, manual `refetch`, and the completion of a started
fetch. -/
inductive CEvent where
  | ensureFresh (staleTime now : Nat)
  | refetch
  | complete (id : Nat) (r : Except JsError CatFactPayload) (now : Nat)

/-- Modelled from the spec: one controller step; the returned Nat counts
Fetcher invocations started by the event.  `ensureFresh` starts a fetch
only if stale and not already loading; `refetch` starts one unless already
loading (then the in-flight result is kept); a completion applies via
`applyComplete`. -/
def controllerStep (s : EntryState) : CEvent → EntryState × Nat
  | .ensureFresh staleTime now =>
    if s.status = .loading then (s, 0)
    else if isStale s staleTime now then (startFetch s, 1) else (s, 0)
  | .refetch =>
    if s.status = .loading then (s, 0) else (startFetch s, 1)
  | .complete id r now => (applyComplete s id r now, 0)

/-- Modelled from the spec: run a sequence of controller events,
accumulating the total number of Fetcher invocations started. -/
def runController (s : EntryState) : List CEvent → EntryState × Nat
  | [] => (s, 0)
  | ev :: evs =>
    let (s', k) := controllerStep s ev
    let (s'', k') := runController s' evs
    (s'', k + k')

/-- Modelled from the spec: the per-key controller invariant — either no
fetch is outstanding (and the entry is not loading), or exactly one fetch
is outstanding, it is the current one, and the entry is loading. -/
def ControllerInv (s : EntryState) : Prop :=
  (s.inFlight = [] ∧ s.currentFetchId = none ∧ s.status ≠ .loading) ∨
  (∃ a, s.inFlight = [a] ∧ s.currentFetchId = some a ∧ s.status = .loading)

/-- The query snapshot the UI reads (`data`, `isLoading`, `error` of
`useQuery`), derived from the cache entry. -/
structure QuerySnapshot where
  data : Option CatFactPayload
  isLoading : Bool
  error : Option JsError
deriving Repr, DecidableEq

/-- Snapshot of an entry as exposed to the UI layer. -/
def snapshot (s : EntryState) : QuerySnapshot :=
  { data := s.value, isLoading := s.status = .loading, error := s.errorInfo }

/-- What `CatFactApp` renders, embedded from `src/App.js`: each field is
the text of the corresponding conditionally-rendered block, `none` when
its condition is false. -/
structure RenderedView where
  loadingMessage : Option String
  errorMessage : Option String
  factText : Option String
deriving Repr, DecidableEq

/-- Embeds the rendering of `CatFactApp`: `isLoading && <p>…</p>`,
`error && <p>Error: {error.message}</p>`, `data && <p>{data.fact}</p>`. -/
def render (q : QuerySnapshot) : RenderedView :=
  { loadingMessage := if q.isLoading then some "Getting cat fact..." else none,
    errorMessage := Option.map (fun e => "Error: " ++ JsError.message e) q.error,
    factText := Option.map (fun d => d.fact) q.data }

/-! ### Helper definitions for concrete scenarios -/

/-- A malformed-body 200 response: `fetch` succeeds, `response.ok` is
true, `response.json()` rejects. -/
def malformedOkResponse : HttpResponse :=
  { statusCode := 200, statusText := "OK", json := none }

/-- An environment in which every HTTP request fails at transport level. -/
def envAllFail : Nat → TransportOutcome := fun _ => .failure "network down"

/-- State after the supersession scenario's first completion: from `s`,
start fetch A, start fetch B (superseding A), then B's success resolves. -/
def afterB (s : EntryState) (vb : CatFactPayload) (t1 : Nat) : EntryState :=
  applyComplete (startFetch (startFetch s)) (s.nextFetchId + 1) (.ok vb) t1

/-- State after A's late result then arrives, carrying any result `ra`. -/
def afterA (s : EntryState) (vb : CatFactPayload)
    (ra : Except JsError CatFactPayload) (t1 t2 : Nat) : EntryState :=
  applyComplete (afterB s vb t1) s.nextFetchId ra t2

/-! ### Theorems -/

/-- C6: `completeSuccess(key, value, now)` sets `status=success`,
`value`, `fetchedAt=now` and clears `errorInfo`; starting a fetch (also
via a manual refetch) leaves `errorInfo` untouched and `completeError`
sets it, so after a refetch following an error, `errorInfo` is cleared
only upon the next success and not before. -/
theorem completeSuccess_sets_fields :
    ∀ (s : EntryState) (v : CatFactPayload) (e : JsError) (now : Nat),
      (completeSuccess s v now).status = .success ∧
      (completeSuccess s v now).value = some v ∧
      (completeSuccess s v now).fetchedAt = some now ∧
      (completeSuccess s v now).errorInfo = none ∧
      (startFetch s).errorInfo = s.errorInfo ∧
      ((controllerStep s .refetch).1).errorInfo = s.errorInfo ∧
      (completeError s e).errorInfo = some e := by
  intro s v e now
  refine ⟨rfl, rfl, rfl, rfl, rfl, ?_, rfl⟩
  by_cases h : s.status = .loading <;> simp [controllerStep, h, startFetch]

/-- C3: `completeError` sets `status=error` and `errorInfo`, leaving
`value` (and `fetchedAt`) unchanged; across every controller event,
`value` changes only when a current fetch's success completion is
applied, and then to that fetch's payload. -/
theorem completeError_preserves_value :
    ∀ (s : EntryState) (e : JsError) (ev : CEvent),
      (completeError s e).status = .error ∧
      (completeError s e).errorInfo = some e ∧
      (completeError s e).value = s.value ∧
      (completeError s e).fetchedAt = s.fetchedAt ∧
      (startFetch s).value = s.value ∧
      ((controllerStep s ev).1.value = s.value ∨
        ∃ id v now, ev = .complete id (.ok v) now ∧ s.currentFetchId = some id ∧
          (controllerStep s ev).1.value = some v) := by
  intro s e ev
  refine ⟨rfl, rfl, rfl, rfl, rfl, ?_⟩
  cases ev with
  | ensureFresh st now =>
    by_cases h : s.status = .loading
    · simp [controllerStep, h]
    · by_cases h2 : isStale s st now <;> simp [controllerStep, h, h2, startFetch]
  | refetch =>
    by_cases h : s.status = .loading <;> simp [controllerStep, h, startFetch]
  | complete id r now =>
    by_cases h : s.currentFetchId = some id
    · cases r with
      | ok v =>
        exact Or.inr ⟨id, v, now, rfl, h,
          by simp [controllerStep, applyComplete, h, completeSuccess]⟩
      | error e2 =>
        exact Or.inl (by simp [controllerStep, applyComplete, h, completeError])
    · exact Or.inl (by simp [controllerStep, applyComplete, h])

/-- C7: `isStale` is true exactly when no fetch has occurred or
`now - fetchedAt > staleTime`; it is false immediately after a successful
fetch and true once the clock passes `staleTime` after `fetchedAt`. -/
theorem isStale_characterization :
    ∀ (s : EntryState) (staleTime now : Nat) (v : CatFactPayload) (t : Nat),
      (isStale s staleTime now = true ↔
        s.fetchedAt = none ∨ ∃ u, s.fetchedAt = some u ∧ now - u > staleTime) ∧
      isStale (completeSuccess s v t) staleTime t = false ∧
      (∀ now', now' > t + staleTime →
        isStale (completeSuccess s v t) staleTime now' = true) := by
  intro s staleTime now v t
  refine ⟨?_, ?_, ?_⟩
  · cases h : s.fetchedAt with
    | none => simp [isStale, h]
    | some u => simp [isStale, h]
  · simp [isStale, completeSuccess]
  · intro now' h
    simp only [isStale, completeSuccess, decide_eq_true_eq]
    omega

/-- C10: for every non-2xx response, `fetchCatFact` fails with the fixed
message `Failed to fetch cat fact`, independent of the status code and
reason: any two non-2xx responses produce the same failure. -/
theorem non2xx_fixed_error_message :
    ∀ (r r' : HttpResponse),
      (r.statusCode < 200 ∨ 300 ≤ r.statusCode) →
      (r'.statusCode < 200 ∨ 300 ≤ r'.statusCode) →
      fetchCatFact (.response r) =
        .error (.networkError "Failed to fetch cat fact") ∧
      fetchCatFact (.response r) = fetchCatFact (.response r') := by
  intro r r' h h'
  have hok : r.ok = false := by
    simp only [HttpResponse.ok, Bool.and_eq_false_iff, decide_eq_false_iff_not]
    omega
  have hok' : r'.ok = false := by
    simp only [HttpResponse.ok, Bool.and_eq_false_iff, decide_eq_false_iff_not]
    omega
  constructor <;> simp [fetchCatFact, hok, hok']

/-- Witness for C10 at a concrete 404 response. -/
theorem non2xx_fixed_error_message_witness :
    fetchCatFact (.response ⟨404, "Not Found", none⟩) =
      .error (.networkError "Failed to fetch cat fact") :=
  (non2xx_fixed_error_message ⟨404, "Not Found", none⟩ ⟨500, "Server Error", none⟩
    (by decide) (by decide)).1

/-- C8: one Fetcher invocation issues exactly one HTTP request — the
request count advances by one whether the request succeeds or fails — and
its result depends only on that single request's outcome, so a failed
request is never re-attempted inside the Fetcher. -/
theorem fetcher_single_request :
    ∀ (env env' : Nat → TransportOutcome) (n : Nat),
      (fetchOnce env n).2 = n + 1 ∧
      (fetchOnce env n).1 = fetchCatFact (env n) ∧
      (env' n = env n → fetchOnce env' n = fetchOnce env n) := by
  intro env env' n
  exact ⟨rfl, rfl, fun h => by simp [fetchOnce, h]⟩

/-- Witness for C8 at a concrete all-failing environment. -/
theorem fetcher_single_request_witness :
    (fetchOnce envAllFail 0).2 = 0 + 1 ∧ fetchOnce envAllFail 0 = fetchOnce envAllFail 0 :=
  ⟨(fetcher_single_request envAllFail envAllFail 0).1,
   (fetcher_single_request envAllFail envAllFail 0).2.2 rfl⟩

/-- C4 counterexample: a 2xx response with a malformed body is neither a
transport failure nor non-2xx, yet `fetchCatFact` fails — and not with a
network error — so a run has a failure outcome other than NetworkError. -/
theorem fetchCatFact_other_failure_exists :
    fetchCatFact (.response malformedOkResponse) =
      .error (.decodeError decodeFailMessage) ∧
    malformedOkResponse.ok = true := ⟨rfl, rfl⟩

/-- C4 amended: `fetchCatFact` fails with a NetworkError exactly on a
transport failure (carrying its message) or a non-2xx response (carrying
the fixed message); on a 2xx response it resolves with the parsed payload
when the body parses and fails with a DecodeError when it is malformed;
these are the only outcomes. -/
theorem fetchCatFact_outcome_characterization :
    ∀ (o : TransportOutcome),
      (∀ m, o = .failure m → fetchCatFact o = .error (.networkError m)) ∧
      (∀ r, o = .response r → r.ok = false →
        fetchCatFact o = .error (.networkError "Failed to fetch cat fact")) ∧
      (∀ r v, o = .response r → r.ok = true → r.json = some v →
        fetchCatFact o = .ok v) ∧
      (∀ r, o = .response r → r.ok = true → r.json = none →
        fetchCatFact o = .error (.decodeError decodeFailMessage)) ∧
      (∀ e, fetchCatFact o = .error e →
        (∃ m, e = .networkError m) ∨ e = .decodeError decodeFailMessage) := by
  intro o
  refine ⟨?_, ?_, ?_, ?_, ?_⟩
  · rintro m rfl; rfl
  · rintro r rfl hok; simp [fetchCatFact, hok]
  · rintro r v rfl hok hj; simp [fetchCatFact, hok, hj]
  · rintro r rfl hok hj; simp [fetchCatFact, hok, hj]
  · intro e he
    cases o with
    | failure m =>
      simp only [fetchCatFact, Except.error.injEq] at he
      exact Or.inl ⟨m, he.symm⟩
    | response r =>
      cases hok : r.ok with
      | false =>
        simp only [fetchCatFact, hok, Bool.not_false, if_pos, Except.error.injEq] at he
        exact Or.inl ⟨"Failed to fetch cat fact", he.symm⟩
      | true =>
        cases hj : r.json with
        | some v => simp [fetchCatFact, hok, hj] at he
        | none =>
          simp only [fetchCatFact, hok, hj, Bool.not_true, Bool.false_eq_true,
            if_false, Except.error.injEq] at he
          exact Or.inr he.symm

/-- Witness for the amended C4 at a concrete transport failure. -/
theorem fetchCatFact_outcome_characterization_witness :
    fetchCatFact (.failure "boom") = .error (.networkError "boom") :=
  (fetchCatFact_outcome_characterization (.failure "boom")).1 "boom" rfl

/-- C2: in the supersession scenario — fetch A starts, fetch B starts
before A resolves (so B is current and A superseded), B's success is
applied, then A's late result arrives — A's completion is discarded: the
entry keeps B's value, status, errorInfo and fetchedAt, whatever result A
carried (last-started-wins, not last-completed-wins). -/
theorem superseded_completion_discarded :
    ∀ (s : EntryState) (vb : CatFactPayload) (ra : Except JsError CatFactPayload)
      (t1 t2 : Nat),
      (startFetch (startFetch s)).currentFetchId = some (s.nextFetchId + 1) ∧
      (startFetch (startFetch s)).inFlight =
        (s.nextFetchId + 1) :: s.nextFetchId :: s.inFlight ∧
      (afterB s vb t1).value = some vb ∧
      (afterB s vb t1).status = .success ∧
      (afterA s vb ra t1 t2).value = some vb ∧
      (afterA s vb ra t1 t2).status = (afterB s vb t1).status ∧
      (afterA s vb ra t1 t2).errorInfo = (afterB s vb t1).errorInfo ∧
      (afterA s vb ra t1 t2).fetchedAt = (afterB s vb t1).fetchedAt := by
  intro s vb ra t1 t2
  refine ⟨rfl, rfl, ?_, ?_, ?_, ?_, ?_, ?_⟩ <;>
    simp [afterA, afterB, applyComplete, startFetch, completeSuccess]

/-- C9: a failed fetch result is settled into the entry as
`status=error` with the failure in `errorInfo`; the rendered error text is
a function of `errorInfo` alone (the UI sees errors only through the
snapshot, never as a thrown exception), and both error kinds — network
and decode — arise as ordinary recoverable values of the Fetcher. -/
theorem errors_surfaced_as_errorInfo :
    ∀ (s : EntryState) (e : JsError) (t : Nat),
      (settle s (.error e) t).errorInfo = some e ∧
      (settle s (.error e) t).status = .error ∧
      (∀ s', (render (snapshot s')).errorMessage =
        Option.map (fun er => "Error: " ++ JsError.message er) s'.errorInfo) ∧
      fetchCatFact (.failure "network down") =
        .error (.networkError "network down") ∧
      fetchCatFact (.response malformedOkResponse) =
        .error (.decodeError decodeFailMessage) := by
  intro s e t
  exact ⟨rfl, rfl, fun s' => rfl, rfl, rfl⟩

/-- Unfolding of one retry round on a network failure of attempt `n`. -/
lemma fetchWithRetry_succ_netfail (env : Nat → TransportOutcome) (fuel n : Nat)
    (m : String) (h : fetchCatFact (env n) = .error (.networkError m)) :
    fetchWithRetry env (fuel + 1) n =
      if fuel = 0 then (.error (.networkError m), n + 1)
      else fetchWithRetry env fuel (n + 1) := by
  simp [fetchWithRetry, fetchOnce, h]

/-- If every attempt fails with the same network error, the retry loop
makes exactly `fuel` attempts and reports that error. -/
lemma fetchWithRetry_all_net_fail (env : Nat → TransportOutcome) (m : String)
    (h : ∀ i, fetchCatFact (env i) = .error (.networkError m)) :
    ∀ fuel n, 1 ≤ fuel →
      fetchWithRetry env fuel n = (.error (.networkError m), n + fuel) := by
  intro fuel
  induction fuel with
  | zero => intro n h0; omega
  | succ k ih =>
    intro n _
    rw [fetchWithRetry_succ_netfail env k n m (h n)]
    by_cases hk : k = 0
    · subst hk; simp
    · rw [if_neg hk, ih (n + 1) (by omega)]
      have : n + 1 + k = n + (k + 1) := by omega
      rw [this]

/-- The retry loop never makes more attempts than its budget. -/
lemma fetchWithRetry_requests_le (env : Nat → TransportOutcome) :
    ∀ fuel n, (fetchWithRetry env fuel n).2 ≤ n + fuel := by
  intro fuel
  induction fuel with
  | zero => intro n; simp [fetchWithRetry]
  | succ k ih =>
    intro n
    cases h : fetchCatFact (env n) with
    | ok v => simp [fetchWithRetry, fetchOnce, h]
    | error e =>
      cases e with
      | networkError m =>
        rw [fetchWithRetry_succ_netfail env k n m h]
        by_cases hk : k = 0
        · simp [hk]
        · rw [if_neg hk]
          have := ih (n + 1)
          omega
      | decodeError m => simp [fetchWithRetry, fetchOnce, h]

/-- C5: when every attempt fails with a NetworkError and `maxRetries` is
3, the controller makes exactly 3 fetch attempts, reports the final
network error, and settling it leaves the entry with `status=error`; in
general the number of attempts never exceeds the `maxRetries` budget. -/
theorem retry_bound_three_failures :
    ∀ (env : Nat → TransportOutcome) (m : String) (n t : Nat) (s : EntryState),
      (∀ i, fetchCatFact (env i) = .error (.networkError m)) →
      (fetchWithRetry env 3 n = (.error (.networkError m), n + 3) ∧
       (settle s (fetchWithRetry env 3 n).1 t).status = .error ∧
       (∀ (env2 : Nat → TransportOutcome) (k n2 : Nat),
          (fetchWithRetry env2 k n2).2 ≤ n2 + k)) := by
  intro env m n t s h
  have h3 := fetchWithRetry_all_net_fail env m h 3 n (by omega)
  exact ⟨h3, by rw [h3]; rfl, fun env2 k n2 => fetchWithRetry_requests_le env2 k n2⟩

/-- Witness for C5: three transport failures with a budget of 3 yield
exactly 3 attempts and an error status. -/
theorem retry_bound_three_failures_witness :
    fetchWithRetry envAllFail 3 0 =
      (.error (.networkError "network down"), 0 + 3) ∧
    (settle entryInit (fetchWithRetry envAllFail 3 0).1 7).status = .error :=
  ⟨(retry_bound_three_failures envAllFail "network down" 0 7 entryInit
      (fun _ => rfl)).1,
   (retry_bound_three_failures envAllFail "network down" 0 7 entryInit
      (fun _ => rfl)).2.1⟩

/-- Every controller event preserves the per-key invariant. -/
lemma controllerStep_preserves_inv (s : EntryState) (ev : CEvent)
    (h : ControllerInv s) : ControllerInv (controllerStep s ev).1 := by
  cases ev with
  | ensureFresh st now =>
    by_cases hl : s.status = .loading
    · simpa [controllerStep, hl] using h
    · by_cases hs : isStale s st now
      · rcases h with ⟨h1, h2, h3⟩ | ⟨a, h1, h2, h3⟩
        · right
          exact ⟨s.nextFetchId, by simp [controllerStep, hl, hs, startFetch, h1]⟩
        · exact absurd h3 hl
      · simpa [controllerStep, hl, hs] using h
  | refetch =>
    by_cases hl : s.status = .loading
    · simpa [controllerStep, hl] using h
    · rcases h with ⟨h1, h2, h3⟩ | ⟨a, h1, h2, h3⟩
      · right
        exact ⟨s.nextFetchId, by simp [controllerStep, hl, startFetch, h1]⟩
      · exact absurd h3 hl
  | complete id r now =>
    rcases h with ⟨h1, h2, h3⟩ | ⟨a, h1, h2, h3⟩
    · left
      constructor
      · simp [controllerStep, applyComplete, h1, h2]
      · constructor <;> simp [controllerStep, applyComplete, h1, h2, h3]
    · by_cases hid : id = a
      · subst hid
        left
        cases r with
        | ok v =>
          constructor
          · simp [controllerStep, applyComplete, h1, h2, completeSuccess]
          · constructor <;>
              simp [controllerStep, applyComplete, h1, h2, completeSuccess]
        | error e =>
          constructor
          · simp [controllerStep, applyComplete, h1, h2, completeError]
          · constructor <;>
              simp [controllerStep, applyComplete, h1, h2, completeError]
      · right
        have hne : ¬ s.currentFetchId = some id := by
          rw [h2]
          intro hc
          exact hid (Option.some.inj hc).symm
        have hane : a ≠ id := fun hc => hid hc.symm
        refine ⟨a, ?_, ?_, ?_⟩ <;>
          simp [controllerStep, applyComplete, h1, h2, h3, hne,
            List.erase_cons, hane]

/-- Running any sequence of controller events preserves the invariant. -/
lemma runController_preserves_inv (evs : List CEvent) :
    ∀ s, ControllerInv s → ControllerInv (runController s evs).1 := by
  induction evs with
  | nil => intro s h; simpa [runController] using h
  | cons ev evs ih =>
    intro s h
    simpa [runController] using ih _ (controllerStep_preserves_inv s ev h)

/-- C1: while an entry is loading, a further `ensureFresh` or `refetch`
starts no second Fetcher invocation and leaves the entry unchanged (the
caller sees the in-flight entry), and `beginFetch` answers false; the
controller invariant holds initially, is preserved by any event sequence,
and bounds the outstanding fetches per key by one at all times. -/
theorem loading_deduplicates_fetches :
    ∀ (s : EntryState) (staleTime now : Nat) (evs : List CEvent) (s0 : EntryState),
      (s.status = .loading →
        controllerStep s (.ensureFresh staleTime now) = (s, 0) ∧
        controllerStep s .refetch = (s, 0) ∧
        (beginFetch s).1 = false ∧ (beginFetch s).2 = s) ∧
      ControllerInv entryInit ∧
      (ControllerInv s0 →
        ControllerInv (runController s0 evs).1 ∧
        (runController s0 evs).1.inFlight.length ≤ 1) := by
  intro s staleTime now evs s0
  refine ⟨?_, ?_, ?_⟩
  · intro hl
    exact ⟨by simp [controllerStep, hl], by simp [controllerStep, hl],
      by simp [beginFetch, hl], by simp [beginFetch, hl]⟩
  · exact Or.inl ⟨rfl, rfl, by decide⟩
  · intro h0
    have hinv := runController_preserves_inv evs s0 h0
    refine ⟨hinv, ?_⟩
    rcases hinv with ⟨h1, _, _⟩ | ⟨a, h1, _, _⟩ <;> simp [h1]

/-- Witness for C1: with one fetch in flight, a manual refetch starts no
second invocation; the invariant bound holds along a concrete run. -/
theorem loading_deduplicates_fetches_witness :
    controllerStep (startFetch entryInit) CEvent.refetch = (startFetch entryInit, 0) ∧
    (runController entryInit [CEvent.refetch]).1.inFlight.length ≤ 1 :=
  ⟨((loading_deduplicates_fetches (startFetch entryInit) 0 0 [] entryInit).1 rfl).2.1,
   ((loading_deduplicates_fetches (startFetch entryInit) 0 0 [CEvent.refetch]
      entryInit).2.2 (Or.inl ⟨rfl, rfl, by decide⟩)).2⟩

/-- Witness for C7: with `staleTime=5000`, the entry is fresh at the
moment of a successful fetch and stale at time 5001 past it. -/
theorem isStale_characterization_witness :
    isStale (completeSuccess entryInit ⟨"cats sleep a lot"⟩ 0) 5000 0 = false ∧
    isStale (completeSuccess entryInit ⟨"cats sleep a lot"⟩ 0) 5000 5001 = true :=
  ⟨(isStale_characterization entryInit 5000 0 ⟨"cats sleep a lot"⟩ 0).2.1,
   (isStale_characterization entryInit 5000 0 ⟨"cats sleep a lot"⟩ 0).2.2 5001
     (by decide)⟩
